import Mathlib

/-!
# Verification of the udpx transport (obonobo/ecurl, `src/udp`)

Shallow embedding of the packet codec (`src/udp/src/packet.rs`) and the
transport layer (`src/udp/src/transport.rs`).  Bytes are modelled as `Nat`
with explicit bounds where the Rust types (`u8`, `u16`, `u32`) force them.
Socket effects are modelled by oracles: a function from the index of the
syscall to its outcome.  Rust `HashMap`s are modelled as association lists;
`HashMap` iteration order is unspecified in Rust, the list order stands in
for one admissible order.
-/

/-- Decidable equality for `Except` results (not provided by core). -/
instance {ε α : Type} [DecidableEq ε] [DecidableEq α] : DecidableEq (Except ε α) :=
fun a b =>
  match a, b with
  | .ok x, .ok y =>
    if h : x = y then isTrue (by rw [h])
    else isFalse (by intro hc; cases hc; exact h rfl)
  | .error x, .error y =>
    if h : x = y then isTrue (by rw [h])
    else isFalse (by intro hc; cases hc; exact h rfl)
  | .ok _, .error _ => isFalse (by intro hc; cases hc)
  | .error _, .ok _ => isFalse (by intro hc; cases hc)

namespace Udpx

/-! ## Packet codec (`src/udp/src/packet.rs`) -/

/-- Packet type (`packet.rs:256-265`).

Modelled from the spec: the `Flush` variant.  `transport.rs` under `src/`
uses `PacketType::Flush` (`transport.rs:584,770`), but the copy of
`packet.rs` under `src/` is an earlier revision of the file that lacks that
variant, so the revision of `packet.rs` this `transport.rs` compiles with is
missing from `src/`.  Following the spec ("FLUSH=7"), `Flush` is added here;
all other variants are exactly those of `packet.rs`. -/
inductive PacketType where
| Ack
| Syn
| SynAck
| Nak
| Data
| Fin
| FinAck
| Flush
| Invalid
deriving DecidableEq, Repr

/-- `impl From<u8> for PacketType` (`packet.rs:289-302`): bytes 0-6 name the
types in order, anything else falls to `Invalid`.

Modelled from the spec: the arm `7 => Flush` (the spec's "FLUSH=7"); in the
earlier `packet.rs` revision under `src/` byte 7 fell into the catch-all
`Invalid` arm because the variant did not exist. -/
def PacketType.fromByte (b : Nat) : PacketType :=
match b with
| 0 => .Ack
| 1 => .Syn
| 2 => .SynAck
| 3 => .Nak
| 4 => .Data
| 5 => .Fin
| 6 => .FinAck
| 7 => .Flush
| _ => .Invalid

/-- `impl From<PacketType> for u8` (`packet.rs:304-317`); `Invalid` maps to
`u8::MAX = 255`.  Modelled from the spec: the arm `Flush => 7`. -/
def PacketType.toByte (p : PacketType) : Nat :=
match p with
| .Ack => 0
| .Syn => 1
| .SynAck => 2
| .Nak => 3
| .Data => 4
| .Fin => 5
| .FinAck => 6
| .Flush => 7
| .Invalid => 255

/-- `u32::to_be_bytes` (big-endian, 4 bytes). -/
def toBe4 (n : Nat) : List Nat :=
[n / 2 ^ 24 % 256, n / 2 ^ 16 % 256, n / 2 ^ 8 % 256, n % 256]

/-- `u16::to_be_bytes` (big-endian, 2 bytes). -/
def toBe2 (n : Nat) : List Nat :=
[n / 2 ^ 8 % 256, n % 256]

/-- `u32::from_be_bytes`. -/
def fromBe4 (a b c d : Nat) : Nat :=
((a * 256 + b) * 256 + c) * 256 + d

/-- `u16::from_be_bytes`. -/
def fromBe2 (a b : Nat) : Nat :=
a * 256 + b

/-- The packet structure (`packet.rs:10-25`).  `peer` is the list of the four
IPv4 octets (`Ipv4Addr`), `data` the payload bytes. -/
structure Packet where
ptyp : PacketType
nseq : Nat
peer : List Nat
port : Nat
data : List Nat
deriving DecidableEq, Repr

/-- `Packet::MIN_PACKET_SIZE` (`packet.rs:29`). -/
def Packet.MIN_PACKET_SIZE : Nat := 1 + 4 + 4 + 2

/-- `Packet::PACKET_DATA_CAPACITY` (`packet.rs:35`). -/
def Packet.PACKET_DATA_CAPACITY : Nat := 1014

/-- `Packet::MAX_PACKET_SIZE` (`packet.rs:32`). -/
def Packet.MAX_PACKET_SIZE : Nat :=
Packet.MIN_PACKET_SIZE + Packet.PACKET_DATA_CAPACITY

/-- `Packet::len` (`packet.rs:80-82`). -/
def Packet.len (p : Packet) : Nat :=
p.data.length + Packet.MIN_PACKET_SIZE

/-- `Packet::is_empty` (`packet.rs:84-86`): the constant `false`. -/
def Packet.is_empty (_p : Packet) : Bool :=
false

/-- `impl Default for Packet` (`packet.rs:156-166`): type `Data` (the
`PacketType` default, `packet.rs:325-329`), seq 0, peer `127.0.0.1`,
port 0, empty payload. -/
def Packet.default : Packet :=
{ ptyp := .Data, nseq := 0, peer := [127, 0, 0, 1], port := 0, data := [] }

/-- `Packet::raw` / `Packet::write_to` (`packet.rs:55-78`): type byte, then
big-endian seq, the four peer octets, big-endian port, payload.  `raw`
allocates a buffer of exactly `len` bytes, so every slice write in
`write_to` fits exactly and the result is the plain concatenation. -/
def Packet.raw (p : Packet) : List Nat :=
p.ptyp.toByte :: (toBe4 p.nseq ++ p.peer ++ toBe2 p.port ++ p.data)

/-- `impl TryFrom<&[u8]> for Packet` (`packet.rs:118-154`): buffers shorter
than `MIN_PACKET_SIZE = 11` are rejected (the error text summarises the
Rust `format!` message); otherwise byte 0 is the type, bytes 1-4 the
big-endian seq, bytes 5-8 the peer octets, bytes 9-10 the big-endian port
and everything from byte 11 on the payload. -/
def Packet.tryFrom (buf : List Nat) : Except String Packet :=
match buf with
| t :: s3 :: s2 :: s1 :: s0 :: a :: b :: c :: d :: q1 :: q0 :: rest =>
  .ok { ptyp := PacketType.fromByte t
        nseq := fromBe4 s3 s2 s1 s0
        peer := [a, b, c, d]
        port := fromBe2 q1 q0
        data := rest }
| _ => .error "invalid packet, must be at least 11 bytes"

/-- A packet whose fields fit the Rust field types: `nseq : u32`,
`peer : Ipv4Addr` (four octets), `port : u16`, `data : Vec<u8>`. -/
def Packet.WellFormed (p : Packet) : Prop :=
p.nseq < 2 ^ 32 ∧ p.peer.length = 4 ∧ (∀ b ∈ p.peer, b < 256) ∧
  p.port < 2 ^ 16 ∧ ∀ b ∈ p.data, b < 256

instance (p : Packet) : Decidable p.WellFormed := by
unfold Packet.WellFormed; infer_instance

/-! ## Packet streams (`packet.rs:181-252`)

`PacketStream` wraps a `std::io::Read` source.  A reader is modelled as the
list of the successive outcomes of `reader.read(&mut self.buf)` against the
stream's 1014-byte buffer: either `ok chunk` (the bytes placed in the
buffer; `Ok(n)` with `n = chunk.length`, so a conforming reader always has
`chunk.length ≤ 1014`) or `err` (an `Err(_)` from the reader).  An
exhausted list stands for a reader that keeps returning `Ok(0)`. -/

inductive ReadOutcome where
| ok (chunk : List Nat)
| err
deriving DecidableEq, Repr

/-- Every `ok` chunk fits the 1014-byte read buffer (`packet.rs:188`): a
`Read` implementation never reports more bytes than the buffer holds. -/
def ReaderConforms (reader : List ReadOutcome) : Prop :=
∀ chunk, ReadOutcome.ok chunk ∈ reader → chunk.length ≤ Packet.PACKET_DATA_CAPACITY

instance (reader : List ReadOutcome) : Decidable (ReaderConforms reader) :=
decidable_of_iff
  (reader.all (fun o =>
    match o with
    | .ok c => decide (c.length ≤ Packet.PACKET_DATA_CAPACITY)
    | .err => true) = true)
  (by
    simp only [List.all_eq_true, ReaderConforms]
    constructor
    · intro h chunk hm
      simpa using h _ hm
    · intro h o hm
      cases o with
      | ok c => simpa using h c hm
      | err => simp)

/-- `PacketStream` (`packet.rs:181-189`).  The 1014-byte scratch buffer is
implicit in the `ReadOutcome` model. -/
structure PacketStream where
reader : List ReadOutcome
packet_type : PacketType
seq : Nat
port : Nat
peer : List Nat
active : Bool
deriving DecidableEq, Repr

/-- `Packet::stream` (`packet.rs:41-52`): default packet type (`Data`), seq
starts at 1, default peer `127.0.0.1` and port 0, inactive. -/
def Packet.stream (reader : List ReadOutcome) : PacketStream :=
{ reader := reader
  packet_type := Packet.default.ptyp
  seq := 1
  port := Packet.default.port
  peer := Packet.default.peer
  active := false }

/-- `Iterator::next` for `PacketStream` (`packet.rs:191-216`): mark the
stream active, read one chunk (`Err` or `Ok(0)` end the iteration via
`.ok().filter(|n| *n != 0)?`), emit one packet with the current
configuration and bump `seq`. -/
def PacketStream.next (s : PacketStream) : Option Packet × PacketStream :=
let s := { s with active := true }
match s.reader with
| [] => (none, s)
| .err :: rest => (none, { s with reader := rest })
| .ok chunk :: rest =>
  if chunk.length = 0 then (none, { s with reader := rest })
  else
    (some { ptyp := s.packet_type, nseq := s.seq, peer := s.peer,
            port := s.port, data := chunk },
     { s with reader := rest, seq := s.seq + 1 })

/-- The `seq` setter (`packet_stream_setter!(seq, u32)`, `packet.rs:219-228`
and `packet.rs:238`): the only setter generated by the guarded macro arm —
once the stream is active the call is ignored. -/
def PacketStream.setSeq (s : PacketStream) (seq : Nat) : PacketStream :=
if s.active then s else { s with seq := seq }

/-- The `port` setter (`packet_stream_setter!(port, u16, false)`,
`packet.rs:229-234` and `packet.rs:239`): generated by the *unguarded*
macro arm, so it assigns unconditionally, active or not. -/
def PacketStream.setPort (s : PacketStream) (port : Nat) : PacketStream :=
{ s with port := port }

/-- The `peer` setter (`packet_stream_setter!(peer, Ipv4Addr, false)`,
`packet.rs:240`): unguarded, assigns unconditionally. -/
def PacketStream.setPeer (s : PacketStream) (peer : List Nat) : PacketStream :=
{ s with peer := peer }

/-- The `packet_type` setter
(`packet_stream_setter!(packet_type, PacketType, false)`, `packet.rs:241`):
unguarded, assigns unconditionally. -/
def PacketStream.setPacketType (s : PacketStream) (t : PacketType) : PacketStream :=
{ s with packet_type := t }

/-- `PacketStream::remote` (`packet.rs:244-246`): sets peer then port. -/
def PacketStream.remote (s : PacketStream) (ip : List Nat) (port : Nat) : PacketStream :=
(s.setPeer ip).setPort port

/-- `PacketStream::current_seq` (`packet.rs:249-251`). -/
def PacketStream.current_seq (s : PacketStream) : Nat :=
s.seq

/-- Iterating `next`, with explicit fuel (each yielded packet consumes at
least one reader element, so `reader.length + 1` fuel is always enough —
see `PacketStream.collect`). -/
def PacketStream.collectGo : Nat → PacketStream → List Packet
| 0, _ => []
| fuel + 1, s =>
  match s.next with
  | (none, _) => []
  | (some p, s') => p :: PacketStream.collectGo fuel s'

/-- Drains the iterator: the list of packets yielded before the first
`None`, i.e. what `packets.collect::<Vec<_>>()` produces. -/
def PacketStream.collect (s : PacketStream) : List Packet :=
PacketStream.collectGo (s.reader.length + 1) s

/-- The chunks a `PacketStream` turns into packets: the longest prefix of
reads that are `Ok(n)` with `n != 0` (`packet.rs:200-202`). -/
def goodChunks (reader : List ReadOutcome) : List (List Nat) :=
match reader with
| .ok chunk :: rest => if chunk.length = 0 then [] else chunk :: goodChunks rest
| _ => []

/-- 1014-byte chunking with explicit fuel (each chunk consumes at least
one byte, so `l.length` fuel is always enough — see `chunksOf1014`). -/
def chunksOf1014Go : Nat → List Nat → List (List Nat)
| 0, _ => []
| fuel + 1, l =>
  if l.isEmpty then [] else l.take 1014 :: chunksOf1014Go fuel (l.drop 1014)

/-- The successive results of `read` calls against an in-memory byte slice
(`&[u8] as Read`): each call copies `min(1014, remaining)` bytes, an
exhausted slice reports `Ok(0)`. -/
def chunksOf1014 (l : List Nat) : List (List Nat) :=
chunksOf1014Go l.length l

/-- A `&[u8]` byte slice viewed as a `PacketStream` reader. -/
def sliceReader (buf : List Nat) : List ReadOutcome :=
(chunksOf1014 buf).map .ok

/-! ## Transport layer (`src/udp/src/transport.rs`)

Sockets are modelled by *oracles*: functions from the index of the syscall
(every `recv`/`recv_from`/`send`/`send_to` consumes the next index of its
oracle) to the outcome the OS would report.  `set_read_timeout` /
`set_write_timeout` / `connect` / `bind` are socket bookkeeping that always
succeeds in the model; the timeout *values* only shape which outcomes
(`TimedOut` etc.) the oracle may report.  `Instant`s are milliseconds as
`Nat` (the clock is monotone).  Only IPv4 endpoints are modelled — the
transport itself rejects or defaults everything else (`try_to_ipv4`). -/

/-- The `std::io::ErrorKind`s the transport distinguishes; every kind it
only ever catches with a `_` arm is collapsed into `other`. -/
inductive IoErrorKind where
| timedOut
| wouldBlock
| interrupted
| other
deriving DecidableEq, Repr

/-- A `std::io::Error`: a kind plus its message.  Rust `format!` messages
that interpolate `Display` output are modelled by their fixed prefix. -/
structure IoError where
kind : IoErrorKind
msg : String
deriving DecidableEq, Repr

/-- An IPv4 socket address (`SocketAddrV4`): the four octets and the port. -/
structure SockAddrV4 where
ip : List Nat
port : Nat
deriving DecidableEq, Repr

/-- `u16::from_le_bytes`. -/
def fromLe2 (lo hi : Nat) : Nat :=
lo + hi * 256

/-- `serialize_addr` (`transport.rs:601-611`): the four octets followed by
the port in *little-endian* byte order. -/
def serialize_addr (a : SockAddrV4) : List Nat :=
a.ip ++ [a.port % 256, a.port / 256 % 256]

/-- `deserialize_addr` (`transport.rs:595-599`): octets from bytes 0-3,
little-endian port from bytes 4-5.  Rust `unwrap`s and panics on buffers
shorter than 6 bytes; that path is modelled by a default address (no claim
exercises it). -/
def deserialize_addr (buf : List Nat) : SockAddrV4 :=
match buf with
| a :: b :: c :: d :: lo :: hi :: _ => ⟨[a, b, c, d], fromLe2 lo hi⟩
| _ => ⟨[0, 0, 0, 0], 0⟩

/-- Outcome of one `sock.recv(&mut buf)` on a connected socket. -/
inductive RecvOutcome where
| ok (bytes : List Nat)
| err (e : IoError)
deriving DecidableEq, Repr

/-- Outcome of one `sock.recv_from(&mut buf)`: received bytes plus the
datagram's UDP source address. -/
inductive RecvFromOutcome where
| ok (bytes : List Nat) (src : SockAddrV4)
| err (e : IoError)
deriving DecidableEq, Repr

/-- Outcome of one `sock.send`/`send_to`. -/
inductive SendOutcome where
| ok
| err (e : IoError)
deriving DecidableEq, Repr

/-- `DEFAULT_TIMEOUT` (`transport.rs:23`), in milliseconds. -/
def DEFAULT_TIMEOUT : Nat := 50

/-- `TIMEOUT` (`transport.rs:703`), in milliseconds. -/
def TIMEOUT : Nat := 100

/-- `MAX_SKIPPED` (`transport.rs:702`). -/
def MAX_SKIPPED : Nat := 5

/-- `RELIABLE_SEND_MAX_ATTEMPTS` (`transport.rs:1120`): `1 << 14`. -/
def RELIABLE_SEND_MAX_ATTEMPTS : Nat := 2 ^ 14

/-- Derived `Debug`/`Display` name of a packet type (`packet.rs:319-323`). -/
def ptypName (t : PacketType) : String :=
match t with
| .Ack => "Ack"
| .Syn => "Syn"
| .SynAck => "SynAck"
| .Nak => "Nak"
| .Data => "Data"
| .Fin => "Fin"
| .FinAck => "FinAck"
| .Flush => "Flush"
| .Invalid => "Invalid"

/-- `join` in `reliable_send` (`transport.rs:1142`): packet-type names
joined by `" or "`. -/
def joinTypes (ts : List PacketType) : String :=
String.intercalate " or " (ts.map ptypName)

/-- The error built when `reliable_send` exhausts its attempts with at
least one decoded-but-unaccepted response (`transport.rs:1210-1220`):
`ErrorKind::Other`, message carrying the observed types. -/
def rsInvalidErr (recv_packet_types seen : List PacketType) : IoError :=
⟨.other,
  "invalid response packets, expected to receive a packet of one of these types:"
    ++ joinTypes recv_packet_types
    ++ ", but received only the following packets: " ++ joinTypes seen⟩

/-- The error built when `reliable_send` exhausts its attempts without
decoding any response (`transport.rs:1221-1228`): `ErrorKind::TimedOut`. -/
def rsTimedOutErr : IoError :=
⟨.timedOut, "timed out waiting for valid response"⟩

/-- The socket oracles `reliable_send` consumes: iteration `k` of the loop
performs one `send_to` and one `recv_from`. -/
structure RSEnv where
recvs : Nat → RecvFromOutcome
sends : Nat → SendOutcome

/-- The retry loop of `reliable_send` (`transport.rs:1154-1208`).  `k` is
the iteration (syscall-oracle) index, `i` the attempt counter, `blockLimit`
the would-block budget, `invalid` the accumulated (reversed)
`invalid_response_packets`.  One iteration: `send_to` (`?` propagates a
failure), `recv_from` with the shadowed `TIMEOUT` read timeout, then —
mirroring `transport.rs:1177-1207` — skip a mismatched source when
tolerated, propagate decode failures via `?`, return an accepted response
(for `Syn`/`SynAck` the address deserialized from the payload, else the
UDP source), or record the unaccepted type and retry. -/
def reliableSendGo (env : RSEnv) (send : List Nat) (peer : SockAddrV4)
    (recv_packet_types : List PacketType) (skip_address_mismatch : Bool)
    (k i blockLimit : Nat) (invalid : List PacketType) :
    Except IoError (Packet × SockAddrV4) :=
if h : RELIABLE_SEND_MAX_ATTEMPTS ≤ i then
  .error (if invalid.isEmpty then rsTimedOutErr
          else rsInvalidErr recv_packet_types invalid.reverse)
else
  match env.sends k with
  | .err e => .error e
  | .ok =>
    match env.recvs k with
    | .err e =>
      if e.kind = .timedOut then
        reliableSendGo env send peer recv_packet_types skip_address_mismatch
          (k + 1) (i + 1) blockLimit invalid
      else if hbk : e.kind = .wouldBlock then
        if hb : blockLimit = 0 then .error e
        else
          reliableSendGo env send peer recv_packet_types skip_address_mismatch
            (k + 1) i (blockLimit - 1) invalid
      else .error e
    | .ok bytes src =>
      if skip_address_mismatch ∧ src ≠ peer then
        reliableSendGo env send peer recv_packet_types skip_address_mismatch
          (k + 1) (i + 1) blockLimit invalid
      else
        match Packet.tryFrom bytes with
        | .error msg => .error ⟨.other, msg⟩
        | .ok p =>
          if recv_packet_types.any (fun t => p.ptyp == t) then
            if p.ptyp = .Syn ∨ p.ptyp = .SynAck then .ok (p, deserialize_addr p.data)
            else .ok (p, src)
          else
            reliableSendGo env send peer recv_packet_types skip_address_mismatch
              (k + 1) (i + 1) blockLimit (p.ptyp :: invalid)
termination_by RELIABLE_SEND_MAX_ATTEMPTS - i + blockLimit
decreasing_by
all_goals omega

/-- The read timeout `reliable_send` installs before each receive attempt:
`transport.rs:1138` rebinds `timeout` to the constant `TIMEOUT`, shadowing
the caller's argument, and `transport.rs:1176` passes that shadowed value
to `set_read_timeout`. -/
def reliableSendReadTimeout (_timeout : Nat) : Nat :=
TIMEOUT

/-- `reliable_send` (`transport.rs:1127-1230`).  The `timeout` argument is
shadowed by `TIMEOUT` on entry (see `reliableSendReadTimeout`);
`block_limit` is initialised to `RELIABLE_SEND_MAX_ATTEMPTS` whether or not
`skip_would_block` is set (`transport.rs:1149-1152`); `send_packet_type` is
used only for logging and `proxy` only selects the `send_to` destination. -/
def reliableSend (env : RSEnv) (send : List Nat) (peer : SockAddrV4)
    (_timeout : Nat) (_send_packet_type : PacketType)
    (recv_packet_types : List PacketType)
    (skip_address_mismatch _skip_would_block : Bool)
    (_proxy : Option SockAddrV4) : Except IoError (Packet × SockAddrV4) :=
reliableSendGo env send peer recv_packet_types skip_address_mismatch
  0 0 RELIABLE_SEND_MAX_ATTEMPTS []

/-- Observation: does the `reliable_send` loop exhaust all
`RELIABLE_SEND_MAX_ATTEMPTS` attempts (no accepted response, no early
error), and if so which unaccepted response types were decoded along the
way, in order of arrival?  This walks the indices exactly like
`reliableSendGo` and returns `none` as soon as that loop would return
early. -/
def reliableSendExhaustsGo (env : RSEnv) (peer : SockAddrV4)
    (recv_packet_types : List PacketType) (skip_address_mismatch : Bool)
    (k i blockLimit : Nat) (invalid : List PacketType) :
    Option (List PacketType) :=
if h : RELIABLE_SEND_MAX_ATTEMPTS ≤ i then some invalid.reverse
else
  match env.sends k with
  | .err _ => none
  | .ok =>
    match env.recvs k with
    | .err e =>
      if e.kind = .timedOut then
        reliableSendExhaustsGo env peer recv_packet_types skip_address_mismatch
          (k + 1) (i + 1) blockLimit invalid
      else if hbk : e.kind = .wouldBlock then
        if hb : blockLimit = 0 then none
        else
          reliableSendExhaustsGo env peer recv_packet_types skip_address_mismatch
            (k + 1) i (blockLimit - 1) invalid
      else none
    | .ok bytes src =>
      if skip_address_mismatch ∧ src ≠ peer then
        reliableSendExhaustsGo env peer recv_packet_types skip_address_mismatch
          (k + 1) (i + 1) blockLimit invalid
      else
        match Packet.tryFrom bytes with
        | .error _ => none
        | .ok p =>
          if recv_packet_types.any (fun t => p.ptyp == t) then none
          else
            reliableSendExhaustsGo env peer recv_packet_types skip_address_mismatch
              (k + 1) (i + 1) blockLimit (p.ptyp :: invalid)
termination_by RELIABLE_SEND_MAX_ATTEMPTS - i + blockLimit
decreasing_by
all_goals omega

/-- Top-level exhaustion observation for a `reliable_send` call. -/
def reliableSendExhausts (env : RSEnv) (peer : SockAddrV4)
    (recv_packet_types : List PacketType) (skip_address_mismatch : Bool) :
    Option (List PacketType) :=
reliableSendExhaustsGo env peer recv_packet_types skip_address_mismatch
  0 0 RELIABLE_SEND_MAX_ATTEMPTS []

/-! ### The stream (`transport.rs:279-1043`) -/

/-- `PacketTransfer` (`transport.rs:241-245`). -/
structure PacketTransfer where
acked : Bool
packet : Packet
deriving DecidableEq, Repr

/-- `HashMap::get` on a seq-keyed map, modelled as an association list. -/
def assocGet (l : List (Nat × PacketTransfer)) (k : Nat) : Option PacketTransfer :=
(l.find? (fun e => e.1 == k)).map (fun e => e.2)

/-- `HashMap::remove` (the removal part). -/
def assocRemove (l : List (Nat × PacketTransfer)) (k : Nat) : List (Nat × PacketTransfer) :=
l.filter (fun e => ¬ e.1 == k)

/-- `HashMap::insert`: overwrite the key if present.  The association list
keeps one entry per key; the position chosen stands in for `HashMap`'s
unspecified iteration order. -/
def assocInsert (l : List (Nat × PacketTransfer)) (k : Nat) (v : PacketTransfer) :
    List (Nat × PacketTransfer) :=
assocRemove l k ++ [(k, v)]

/-- `UdpxStream` (`transport.rs:281-295`).  The socket handle and scratch
buffer live outside the model (socket effects come from the oracles). -/
structure UdpxStream where
remote : SockAddrV4
timeout : Nat
packets_received : List (Nat × PacketTransfer)
packets_sent : List (Nat × PacketTransfer)
next_nseq : Nat
closed : Bool
err : Option IoError
last_nseq : Option Nat
proxy : Option SockAddrV4
handshake_ack : Option Packet
got_flush : Bool
deriving DecidableEq, Repr

/-- `UdpxStream::FIRST_NSEQ` (`transport.rs:311`). -/
def UdpxStream.FIRST_NSEQ : Nat := 3

/-- `UdpxStream::new` (`transport.rs:332-370`), with the remote address
already resolved to IPv4 (the V4 branch; the caller-side resolution
fallback is `127.0.0.1:0`). -/
def UdpxStream.new (nseq : Nat) (proxy : Option SockAddrV4) (remote : SockAddrV4) :
    UdpxStream :=
{ remote := remote
  timeout := DEFAULT_TIMEOUT
  packets_received := []
  packets_sent := []
  next_nseq := nseq
  closed := false
  err := none
  last_nseq := none
  proxy := proxy
  handshake_ack := none
  got_flush := false }

/-- `UdpxStream::load_initial_data_packets` (`transport.rs:373-377`). -/
def UdpxStream.load_initial_data_packets (s : UdpxStream) (ps : List Packet) : UdpxStream :=
{ s with packets_received :=
    s.packets_received ++ ps.map (fun p => (p.nseq, ⟨false, p⟩)) }

/-- `UdpxStream::with_starting_data` (`transport.rs:379-385`): keep only
`Data` packets. -/
def UdpxStream.with_starting_data (s : UdpxStream) (ps : List Packet) : UdpxStream :=
s.load_initial_data_packets (ps.filter (fun p => p.ptyp == .Data))

/-- `UdpxStream::received_last_packet` (`transport.rs:558-560`). -/
def UdpxStream.received_last_packet (s : UdpxStream) : Bool :=
match s.last_nseq with
| some n => decide (s.next_nseq ≥ n)
| none => false

/-- `UdpxStream::is_closed` (`transport.rs:553-556`). -/
def UdpxStream.is_closed (s : UdpxStream) : Bool :=
s.closed && s.received_last_packet

/-- `UdpxStream::cannot_read_anymore` (`transport.rs:562-564`). -/
def UdpxStream.cannot_read_anymore (s : UdpxStream) : Bool :=
s.err.isSome || s.is_closed

/-- The message of `UdpxStream::closed_err` (`transport.rs:528-530`). -/
def closedErrMsg : String := "UdpxStream connection closed"

/-- `UdpxStream::closed_err` (`transport.rs:528-530`). -/
def closedErr : IoError := ⟨.other, closedErrMsg⟩

/-- Substring test (`str::contains`). -/
def msgContains (sub s : String) : Bool :=
decide (sub.data <:+: s.data)

/-- `UdpxStream::registered_err` (`transport.rs:533-541`).  `copy_of_err`
reproduces kind and message, so the copy is the error itself here. -/
def UdpxStream.registered_err (s : UdpxStream) : Except IoError Unit :=
if s.is_closed then .error closedErr
else
  match s.err with
  | some e => .error e
  | none => .ok ()

/-- `UdpxStream::maybe_registered_err` (`transport.rs:543-551`). -/
def UdpxStream.maybe_registered_err (s : UdpxStream) (red : Nat) :
    Option (Except IoError Nat) :=
match s.registered_err with
| .error e =>
  if red > 0 || msgContains closedErrMsg e.msg then some (.ok red)
  else some (.error e)
| .ok _ => none

/-- `UdpxStream::packet_defaults` (`transport.rs:520-526`). -/
def UdpxStream.packet_defaults (s : UdpxStream) : Packet :=
{ Packet.default with peer := s.remote.ip, port := s.remote.port }

/-- One connection endpoint together with its socket-oracle cursors and
the log of the packets its socket actually put on the wire (successful
sends, in order). -/
structure Machine where
stream : UdpxStream
recvIdx : Nat
sendIdx : Nat
sentLog : List Packet
deriving DecidableEq, Repr

/-- The socket oracles one stream consumes. -/
structure SockEnv where
recvs : Nat → RecvOutcome
sends : Nat → SendOutcome

/-- One `sock.send` of (the serialization of) a packet: consume the next
send outcome; a successful send appends the packet to the wire log. -/
def Machine.sockSend (env : SockEnv) (m : Machine) (p : Packet) :
    SendOutcome × Machine :=
match env.sends m.sendIdx with
| .ok => (.ok, { m with sendIdx := m.sendIdx + 1, sentLog := m.sentLog ++ [p] })
| .err e => (.err e, { m with sendIdx := m.sendIdx + 1 })

/-- One `sock.recv`: consume the next receive outcome. -/
def Machine.sockRecv (env : SockEnv) (m : Machine) : RecvOutcome × Machine :=
(env.recvs m.recvIdx, { m with recvIdx := m.recvIdx + 1 })

/-- `UdpxStream::register_err` (`transport.rs:515-518`). -/
def Machine.register_err (m : Machine) (e : IoError) : Machine :=
{ m with stream := { m.stream with err := some e } }

/-- `UdpxStream::acknowledge_packet` (`transport.rs:471-492`): send an
`Ack` carrying the packet's seq; `?` propagates a send failure. -/
def Machine.acknowledge_packet (env : SockEnv) (m : Machine) (t : PacketTransfer) :
    Except IoError Machine :=
let ack : Packet := { m.stream.packet_defaults with ptyp := .Ack, nseq := t.packet.nseq }
match m.sockSend env ack with
| (.ok, m') => .ok m'
| (.err e, _) => .error e

/-- `UdpxStream::buffer_and_ack` (`transport.rs:494-506`): ack, then insert
into `packets_received` unless the seq is already buffered. -/
def Machine.buffer_and_ack (env : SockEnv) (m : Machine) (t : PacketTransfer) :
    Except IoError Machine :=
(m.acknowledge_packet env t).map (fun m' =>
  if (assocGet m'.stream.packets_received t.packet.nseq).isNone then
    { m' with stream :=
        { m'.stream with packets_received :=
            (assocInsert m'.stream.packets_received t.packet.nseq t) } }
  else m')

/-- `UdpxStream::fin_ack` (`transport.rs:567-579`): spam 100 `FinAck`s,
ignoring individual send failures (`let _ = ...`); the function itself
only fails on `set_write_timeout`/`write_to`, which the model treats as
always succeeding. -/
def Machine.fin_ack (env : SockEnv) (m : Machine) : Machine :=
(List.range 100).foldl
  (fun acc _ =>
    (acc.sockSend env { acc.stream.packet_defaults with ptyp := .FinAck }).2)
  m

/-- The tail of one `read` loop iteration (`transport.rs:824-846`): copy as
much of the in-hand packet as fits, `truncate_left` the consumed bytes;
a drained packet advances `next_nseq` (returning immediately if it was the
last one), a partially consumed one goes back into `packets_received`.
`inl` is a `return` from `read`, `inr` the state for the next iteration. -/
def readConsume (bufLen : Nat) (m : Machine) (out : List Nat) (t : PacketTransfer) :
    (Except IoError (List Nat) × Machine) ⊕ (Machine × List Nat) :=
let n := min t.packet.data.length (bufLen - out.length)
let out' := out ++ t.packet.data.take n
let data' := t.packet.data.drop n
if data'.isEmpty then
  let m' := { m with stream := { m.stream with next_nseq := m.stream.next_nseq + 1 } }
  if m'.stream.received_last_packet then .inl (.ok out', m')
  else .inr (m', out')
else
  .inr ({ m with stream :=
           { m.stream with packets_received :=
               (assocInsert m.stream.packets_received t.packet.nseq
                 { t with packet := { t.packet with data := data' } }) } },
        out')

/-- The `read` loop (`transport.rs:705-848`).  `out` is the bytes already
copied into the caller's buffer (`red = out.length`), `skipped` the
would-block budget (starting at `1 << 14`, `transport.rs:716`), `fuel` a
modelling artifact bounding the iterations (`none` = fuel ran out; the
Rust loop can genuinely spin for as long as the oracle feeds it packets).
Each iteration mirrors, in order: the loop condition, the registered-error
check, draining `packets_received[next_nseq]`, or else one `recv` —
timeout/would-block/fatal handling (`transport.rs:733-765`), decode with
`wrap_malpac` and `?` (`transport.rs:767-768`), the `Flush` block
(`transport.rs:770-788`), the `Fin` block (`transport.rs:790-807`), the
seq comparisons (`transport.rs:809-820`) — and finally the consume step. -/
def readGo (env : SockEnv) (bufLen : Nat) (m : Machine) (out : List Nat)
    (skipped : Nat) (fuel : Nat) : Option (Except IoError (List Nat) × Machine) :=
match fuel with
| 0 => none
| fuel + 1 =>
  if ¬(out.length < bufLen ∧ 0 < skipped) then some (.ok out, m)
  else
    match m.stream.maybe_registered_err out.length with
    | some (.ok _) => some (.ok out, m)
    | some (.error e) => some (.error e, m)
    | none =>
      match assocGet m.stream.packets_received m.stream.next_nseq with
      | some t =>
        let m := { m with stream :=
          { m.stream with packets_received :=
              (assocRemove m.stream.packets_received m.stream.next_nseq) } }
        match readConsume bufLen m out t with
        | .inl r => some r
        | .inr (m', out') => readGo env bufLen m' out' skipped fuel
      | none =>
        match m.sockRecv env with
        | (.err e, m') =>
          if e.kind = .timedOut then some (.ok out, m')
          else if e.kind = .wouldBlock then
            if out.length > 0 then some (.ok out, m')
            else readGo env bufLen m' out (skipped - 1) fuel
          else some (.ok out, m'.register_err e)
        | (.ok bytes, m') =>
          match Packet.tryFrom bytes with
          | .error emsg =>
            some (.error ⟨.other, "received a malformed packet: " ++ emsg⟩, m')
          | .ok p =>
            let t : PacketTransfer := ⟨false, p⟩
            let mFl :=
              if p.ptyp = .Flush ∧ ¬m'.stream.got_flush then
                { m' with stream :=
                    { m'.stream with got_flush := true, last_nseq := some p.nseq } }
              else m'
            if p.ptyp = .Flush ∧ ¬m'.stream.got_flush ∧
                m'.stream.next_nseq ≥ p.nseq then
              some (.ok out, mFl)
            else if p.ptyp = .Fin then
              let mFin :=
                { mFl with stream :=
                    { mFl.stream with last_nseq := some p.nseq, closed := true } }
              let mFin := mFin.fin_ack env
              if mFin.stream.cannot_read_anymore then some (.ok out, mFin)
              else readGo env bufLen mFin out skipped fuel
            else if p.nseq < mFl.stream.next_nseq then
              match mFl.acknowledge_packet env t with
              | .error e => some (.error e, mFl)
              | .ok m'' => readGo env bufLen m'' out skipped fuel
            else if p.nseq ≠ mFl.stream.next_nseq then
              match mFl.buffer_and_ack env t with
              | .error e => some (.error e, mFl)
              | .ok m'' => readGo env bufLen m'' out skipped fuel
            else
              match mFl.acknowledge_packet env t with
              | .error e => some (.error e, mFl)
              | .ok m'' =>
                match readConsume bufLen m'' out t with
                | .inl r => some r
                | .inr (m₃, out') => readGo env bufLen m₃ out' skipped fuel

/-- `Read::read for UdpxStream` (`transport.rs:706-848`): the result is the
list of bytes placed in the caller's buffer (`Ok(red)` returns its
length). -/
def UdpxStream.read (env : SockEnv) (bufLen : Nat) (fuel : Nat) (m : Machine) :
    Option (Except IoError (List Nat) × Machine) :=
readGo env bufLen m [] (2 ^ 14) fuel

/-- The packets one `write(buf)` call queues (`transport.rs:862-872`): the
buffer chunked by `Packet::stream`, as `Data` packets addressed to the
stream's remote, with consecutive seqs from `next_nseq`. -/
def UdpxStream.queuedPackets (s : UdpxStream) (buf : List Nat) : List Packet :=
PacketStream.collect
  ((((Packet.stream (sliceReader buf)).setPacketType .Data).remote
      s.remote.ip s.remote.port).setSeq s.next_nseq)

/-- The send half of one `write` loop iteration (`transport.rs:885-947`):
walk the queued transfers in order, `send` each; `TimedOut`/`Interrupted`
sends are skipped, a `WouldBlock` send burns one `skipped` and tries a
`recv` instead (any recv error is skipped; a received buffer that fails to
decode propagates via `wrap_malpac()?`; received `Data` is buffered, a
`SynAck` triggers a handshake-ACK resend whose own send failure propagates
via `?`), and any other send error is registered on the stream and
returned.  `inl` carries a `return Err(..)` together with the machine. -/
def writeSendPhase (env : SockEnv) (ts : List PacketTransfer) (m : Machine)
    (skipped : Nat) : (IoError × Machine) ⊕ (Machine × Nat) :=
match ts with
| [] => .inr (m, skipped)
| t :: rest =>
  match m.sockSend env t.packet with
  | (.ok, m') => writeSendPhase env rest m' skipped
  | (.err e, m') =>
    if e.kind = .timedOut ∨ e.kind = .interrupted then writeSendPhase env rest m' skipped
    else if e.kind = .wouldBlock then
      let skipped' := skipped - 1
      match m'.sockRecv env with
      | (.err _, m₂) => writeSendPhase env rest m₂ skipped'
      | (.ok bytes, m₂) =>
        match Packet.tryFrom bytes with
        | .error emsg =>
          .inl (⟨.other, "received a malformed packet: " ++ emsg⟩, m₂)
        | .ok p =>
          match p.ptyp with
          | .Data =>
            let m₃ := { m₂ with stream :=
              { m₂.stream with packets_received :=
                  (assocInsert m₂.stream.packets_received p.nseq ⟨false, p⟩) } }
            writeSendPhase env rest m₃ skipped'
          | .SynAck =>
            match m₂.stream.handshake_ack with
            | some ack =>
              match m₂.sockSend env ack with
              | (.ok, m₃) => writeSendPhase env rest m₃ skipped'
              | (.err e', m₃) => .inl (e', m₃)
            | none => writeSendPhase env rest m₂ skipped'
          | _ => writeSendPhase env rest m₂ skipped'
    else .inl (e, m'.register_err e)

/-- The ACK-await half of one `write` loop iteration
(`transport.rs:950-1033`): up to `i` receives (a received `SynAck` re-runs
an iteration, `i += 1`); `TimedOut` breaks, `Interrupted` retries,
`WouldBlock` burns `skipped` (breaking at 0), any other receive error is
registered and returned; decode failures propagate via `wrap_malpac()?`;
an `Ack` removes the matching queued packet and credits its payload length
to `n`; `Data` is buffered-and-acked (`?` propagates). -/
def writeAckPhase (env : SockEnv) (fuel : Nat) (m : Machine) (i : Nat)
    (skipped n : Nat) : Option ((IoError × Machine) ⊕ (Machine × Nat × Nat)) :=
match fuel with
| 0 => none
| fuel + 1 =>
  if i = 0 then some (.inr (m, skipped, n))
  else
    let i' := i - 1
    match m.sockRecv env with
    | (.err e, m') =>
      if e.kind = .timedOut then some (.inr (m', skipped, n))
      else if e.kind = .interrupted then writeAckPhase env fuel m' i' skipped n
      else if e.kind = .wouldBlock then
        let skipped' := skipped - 1
        if skipped' = 0 then some (.inr (m', skipped', n))
        else writeAckPhase env fuel m' i' skipped' n
      else some (.inl (e, m'.register_err e))
    | (.ok bytes, m') =>
      match Packet.tryFrom bytes with
      | .error emsg =>
        some (.inl (⟨.other, "received a malformed packet: " ++ emsg⟩, m'))
      | .ok p =>
        match p.ptyp with
        | .Ack =>
          match assocGet m'.stream.packets_sent p.nseq with
          | some q =>
            let m₂ := { m' with stream :=
              { m'.stream with packets_sent :=
                  (assocRemove m'.stream.packets_sent p.nseq) } }
            writeAckPhase env fuel m₂ i' skipped (n + q.packet.data.length)
          | none => writeAckPhase env fuel m' i' skipped n
        | .Data =>
          match m'.buffer_and_ack env ⟨false, p⟩ with
          | .error e => some (.inl (e, m'))
          | .ok m₂ => writeAckPhase env fuel m₂ i' skipped n
        | .SynAck =>
          match m'.stream.handshake_ack with
          | some ack =>
            match m'.sockSend env ack with
            | (.ok, m₂) => writeAckPhase env fuel m₂ (i' + 1) skipped n
            | (.err e', m₂) => some (.inl (e', m₂))
          | none => writeAckPhase env fuel m' (i' + 1) skipped n
        | _ => writeAckPhase env fuel m' i' skipped n

/-- The `write` send/ACK loop (`transport.rs:876-1034`): while the send
queue is non-empty and `skipped > 0`, check the registered error, run the
send phase over the queued transfers (in the map's order), then the ACK
phase with `i = packets_sent.len()`.  `fuel` bounds the modelled
iterations (`none` = fuel ran out). -/
def writeGo (env : SockEnv) (fuel : Nat) (m : Machine) (n skipped : Nat) :
    Option (Except IoError Nat × Machine) :=
match fuel with
| 0 => none
| fuel + 1 =>
  if ¬(m.stream.packets_sent ≠ [] ∧ 0 < skipped) then some (.ok n, m)
  else
    match m.stream.maybe_registered_err n with
    | some (.ok _) => some (.ok n, m)
    | some (.error e) => some (.error e, m)
    | none =>
      match writeSendPhase env (m.stream.packets_sent.map (fun e => e.2)) m skipped with
      | .inl (e, m') => some (.error e, m')
      | .inr (m', skipped') =>
        match writeAckPhase env fuel m' m'.stream.packets_sent.length skipped' n with
        | none => none
        | some (.inl (e, m₂)) => some (.error e, m₂)
        | some (.inr (m₂, skipped₂, n₂)) => writeGo env fuel m₂ n₂ skipped₂

/-- `Write::write for UdpxStream` (`transport.rs:852-1036`): an upfront
registered-error check (`?`), queue the chunked buffer into
`packets_sent` advancing `next_nseq` once per packet, then the send/ACK
loop starting with `skipped = 1 << 14` (`transport.rs:876`). -/
def UdpxStream.write (env : SockEnv) (buf : List Nat) (fuel : Nat) (m : Machine) :
    Option (Except IoError Nat × Machine) :=
match m.stream.registered_err with
| .error e => some (.error e, m)
| .ok _ =>
  let ps := m.stream.queuedPackets buf
  let m := { m with stream :=
    { m.stream with
        packets_sent := m.stream.packets_sent ++ ps.map (fun p => (p.nseq, ⟨false, p⟩))
        next_nseq := m.stream.next_nseq + ps.length } }
  writeGo env fuel m 0 (2 ^ 14)

/-! ### Handshakes and the listener (`transport.rs:27-238, 388-445`) -/

/-- The SYN the client sends (`transport.rs:397-403`): seq 0, `peer/port`
the server endpoint, payload the client's serialized local address. -/
def UdpxStream.clientSyn (addr myAddr : SockAddrV4) : Packet :=
{ ptyp := .Syn, nseq := 0, peer := addr.ip, port := addr.port
  data := serialize_addr myAddr }

/-- The client side of the handshake
(`UdpxStream::connect_with_proxy`/`handshake`, `transport.rs:317-322` and
`388-445`).  `addr` is the server, `myAddr` the client socket's local
address (the SYN payload).  The stream starts at `FIRST_NSEQ`; the SYN
carries `nseq = 0`; `reliable_send` awaits a `SynAck` (learning the true
remote from its payload); the final ACK carries `syn_ack.nseq + 1` and is
retained as `handshake_ack`. -/
def UdpxStream.connect_with_proxy (addr myAddr : SockAddrV4)
    (proxy : Option SockAddrV4) (rsEnv : RSEnv) (env : SockEnv) :
    Except IoError Machine :=
let s := UdpxStream.new UdpxStream.FIRST_NSEQ proxy ⟨[127, 0, 0, 1], 0⟩
let syn : Packet := UdpxStream.clientSyn addr myAddr
match reliableSend rsEnv syn.raw addr s.timeout .Syn [.SynAck] false true proxy with
| .error e => .error e
| .ok (syn_ack, remote) =>
  let s := { s with remote := remote }
  let ack : Packet :=
    { Packet.default with
        ptyp := .Ack
        nseq := syn_ack.nseq + 1
        peer := s.remote.ip
        port := s.remote.port }
  let m : Machine := ⟨s, 0, 0, []⟩
  match m.sockSend env ack with
  | (.err e, _) => .error e
  | (.ok, m') => .ok { m' with stream := { m'.stream with handshake_ack := some ack } }

/-- `UdpxListener` (`transport.rs:27-47`): the pure listener state.
`duplicate_syns` maps a SYN packet to the `Instant` (milliseconds) it was
recorded. -/
structure UdpxListener where
timeout : Nat
nonblocking : Bool
proxy : Option SockAddrV4
duplicate_syns : List (Packet × Nat)
deriving DecidableEq, Repr

/-- `HashMap::get` on the `duplicate_syns` map. -/
def dupGet (l : List (Packet × Nat)) (p : Packet) : Option Nat :=
(l.find? (fun e => e.1 == p)).map (fun e => e.2)

/-- `HashMap::insert` on the `duplicate_syns` map (overwrites the key). -/
def dupInsert (l : List (Packet × Nat)) (p : Packet) (t : Nat) : List (Packet × Nat) :=
l.filter (fun e => ¬ e.1 == p) ++ [(p, t)]

/-- `UdpxListener::bind_with_proxy` (`transport.rs:56-68`). -/
def UdpxListener.bind_with_proxy (proxy : Option SockAddrV4) : UdpxListener :=
{ timeout := DEFAULT_TIMEOUT, nonblocking := false, proxy := proxy
  duplicate_syns := [] }

/-- `UdpxListener::handshake` (`transport.rs:83-179`).  `addr` is the UDP
source of the SYN datagram, `packet` the decoded SYN, `dispatchAddr` the
local address of the freshly bound dispatch socket (OS-chosen).  Sends the
SYN-ACK (`nseq = SYN.nseq + 1`, payload = serialized dispatch address) via
`reliable_send` accepting `Ack` or `Data`, then validates: a `Data`
response is accepted as-is, an `Ack` must carry `SYN.nseq + 2`.  Returns
the response packet, the stream's starting seq `SYN.nseq + 3`, and the
remote deserialized from the SYN payload. -/
def UdpxListener.handshakeFn (lst : UdpxListener) (rsEnv : RSEnv)
    (addr : SockAddrV4) (packet : Packet) (dispatchAddr : SockAddrV4) :
    Except IoError (Packet × Nat × SockAddrV4) :=
let remote := deserialize_addr packet.data
if packet.ptyp ≠ .Syn then
  .error ⟨.other, "handshake failure: first packet received is not a SYN"⟩
else
  let send : Packet :=
    { ptyp := .SynAck, nseq := packet.nseq + 1, peer := remote.ip
      port := remote.port, data := serialize_addr dispatchAddr }
  match reliableSend rsEnv send.raw addr lst.timeout .SynAck [.Ack, .Data]
      true false lst.proxy with
  | .error e => .error e
  | .ok (ack_or_data, _) =>
    let nseq := packet.nseq + 3
    match ack_or_data.ptyp with
    | .Data => .ok (ack_or_data, nseq, remote)
    | .Ack =>
      if ack_or_data.nseq ≠ packet.nseq + 2 then
        .error ⟨.other, "bad sequence number on ACK response to SYN-ACK"⟩
      else .ok (ack_or_data, nseq, remote)
    | _ => .error ⟨.other, "received a non-ACK in response to my SYN-ACK"⟩

/-- The part of `UdpxListener::accept` after the duplicate-SYN gate
(`transport.rs:211-232`): record the SYN, run the handshake, and on
success build the stream on the dispatch socket: `UdpxStream::new` with
the handshake's starting seq, the listener's proxy and the learned remote,
pre-loaded via `with_starting_data` with the handshake response (kept only
if it was a `Data` packet). -/
def UdpxListener.acceptContinue (lst : UdpxListener) (rsEnv : RSEnv)
    (packet : Packet) (addr : SockAddrV4) (now : Nat) (dispatchAddr : SockAddrV4) :
    Except IoError (Machine × SockAddrV4) × UdpxListener :=
let lst := { lst with duplicate_syns := dupInsert lst.duplicate_syns packet now }
match lst.handshakeFn rsEnv addr packet dispatchAddr with
| .error e => (.error e, lst)
| .ok (p, nseq, remote) =>
  let stream := (UdpxStream.new nseq lst.proxy remote).with_starting_data [p]
  (.ok (⟨stream, 0, 0, []⟩, addr), lst)

/-- `UdpxListener::accept` (`transport.rs:196-233`): receive one datagram
on the well-known socket (`lstRecv` its outcome), decode it (`?`), reject
it if an equal packet sits in `duplicate_syns` less than 2 seconds old
(`transport.rs:201-210`), otherwise record it and proceed to the
handshake.  `now` is `Instant::now()` in milliseconds. -/
def UdpxListener.accept (lst : UdpxListener) (rsEnv : RSEnv)
    (lstRecv : RecvFromOutcome) (now : Nat) (dispatchAddr : SockAddrV4) :
    Except IoError (Machine × SockAddrV4) × UdpxListener :=
match lstRecv with
| .err e => (.error e, lst)
| .ok bytes addr =>
  match Packet.tryFrom bytes with
  | .error emsg => (.error ⟨.other, emsg⟩, lst)
  | .ok packet =>
    match dupGet lst.duplicate_syns packet with
    | some when_ =>
      if now - when_ < 2000 then
        (.error ⟨.other, "duplicate SYN packet received"⟩, lst)
      else lst.acceptContinue rsEnv packet addr now dispatchAddr
    | none => lst.acceptContinue rsEnv packet addr now dispatchAddr

/-! ### Concrete scenarios used to instantiate the claims -/

/-- A client SYN: seq 0, aimed at `127.0.0.1:80`, payload = the client's
serialized address `127.0.0.1:5000`. -/
def synW : Packet :=
{ ptyp := .Syn, nseq := 0, peer := [127, 0, 0, 1], port := 80
  data := serialize_addr ⟨[127, 0, 0, 1], 5000⟩ }

/-- The client's handshake ACK for `synW`: seq `SYN.seq + 2 = 2`. -/
def ackW : Packet :=
{ Packet.default with ptyp := .Ack, nseq := 2, peer := [127, 0, 0, 1], port := 5000 }

/-- The client's UDP address in the concrete scenarios. -/
def clientAddrW : SockAddrV4 := ⟨[127, 0, 0, 1], 5000⟩

/-- The server's dispatch-socket address in the concrete scenarios. -/
def dispatchAddrW : SockAddrV4 := ⟨[127, 0, 0, 1], 6000⟩

/-- Dispatch-socket oracles for the server handshake: the first (and every)
`recv_from` delivers the client's ACK, all sends succeed. -/
def rsEnvW : RSEnv :=
⟨fun _ => .ok ackW.raw clientAddrW, fun _ => .ok⟩

/-- Dispatch-socket oracles that only ever time out. -/
def rsEnvTimeoutW : RSEnv :=
⟨fun _ => .err ⟨.timedOut, "recv timed out"⟩, fun _ => .ok⟩

/-- A freshly bound listener with no proxy. -/
def lstW : UdpxListener := UdpxListener.bind_with_proxy none

/-- The server-side machine `accept` hands out in the concrete scenario:
stream on the dispatch socket, `next_nseq = SYN.nseq + 3 = 3`. -/
def srvMachineW : Machine :=
⟨UdpxStream.new 3 none clientAddrW, 0, 0, []⟩

/-- Stream-socket oracles in which every receive yields an ACK for seq 3
and every send succeeds. -/
def wrAckEnvW : SockEnv :=
⟨fun _ => .ok (Packet.raw { Packet.default with ptyp := .Ack, nseq := 3 }), fun _ => .ok⟩

/-- Stream-socket oracles in which every receive yields a 3-byte datagram
(shorter than the 11-byte minimum) and every send succeeds. -/
def malEnvW : SockEnv :=
⟨fun _ => .ok [1, 2, 3], fun _ => .ok⟩

/-- Stream-socket oracles in which every receive times out and every send
succeeds. -/
def quietEnvW : SockEnv :=
⟨fun _ => .err ⟨.timedOut, "recv timed out"⟩, fun _ => .ok⟩

/-- An established stream machine (server side of `synW`'s connection,
remote `127.0.0.1:5000`), no buffered packets, no error. -/
def estMachineW : Machine :=
⟨UdpxStream.new 3 none clientAddrW, 0, 0, []⟩

/-- The seqs of the DATA packets a machine actually put on the wire, in
order of transmission. -/
def wireDataSeqs (m : Machine) : List Nat :=
(m.sentLog.filter (fun p => p.ptyp == .Data)).map (fun p => p.nseq)

/-- A server-side machine (seq counter at 3) holding the client's
one-packet request (seq 3, three payload bytes) in its receive buffer. -/
def consumeMachineW : Machine :=
⟨{ UdpxStream.new 3 none clientAddrW with
     packets_received := [(3, ⟨false, ⟨.Data, 3, [127, 0, 0, 1], 9, [7, 8, 9]⟩⟩)] },
 0, 0, []⟩

/-! ## Theorems -/

/-- C1: for every well-formed packet (fields within the Rust types, a known
packet type and a payload of at most 1014 bytes), decoding the encoding
yields the packet back: `Packet::try_from(p.raw()) == Ok(p)`. -/
theorem C1_codec_round_trip (p : Packet) (hwf : p.WellFormed)
    (hknown : p.ptyp ≠ PacketType.Invalid)
    (hcap : p.data.length ≤ Packet.PACKET_DATA_CAPACITY) :
    Packet.tryFrom p.raw = .ok p := by
obtain ⟨hseq, hpeer, -, hport, -⟩ := hwf
rcases p with ⟨t, n, peer, port, data⟩
simp only at hseq hpeer hport
obtain ⟨a, b, c, d, rfl⟩ : ∃ a b c d, peer = [a, b, c, d] := by
  rcases peer with _ | ⟨a, _ | ⟨b, _ | ⟨c, _ | ⟨d, _ | _⟩⟩⟩⟩ <;> simp_all
simp only [Packet.raw, toBe4, toBe2, List.cons_append, List.nil_append,
  List.append_assoc, Packet.tryFrom]
refine congrArg Except.ok ?_
have ht : PacketType.fromByte (PacketType.toByte t) = t := by cases t <;> rfl
simp only [Packet.mk.injEq, ht, fromBe4, fromBe2, List.cons.injEq, true_and,
  and_true]
omega

/-- C1 witness: the round trip evaluated at a concrete well-formed
packet. -/
theorem C1_codec_round_trip_witness :
    (let p : Packet := ⟨.Data, 70000, [192, 168, 2, 1], 8080, [1, 2, 3]⟩
     p.WellFormed ∧ p.ptyp ≠ PacketType.Invalid ∧
       p.data.length ≤ Packet.PACKET_DATA_CAPACITY ∧
       Packet.tryFrom p.raw = .ok p) :=
⟨by decide, by decide, by decide,
 C1_codec_round_trip _ (by decide) (by decide) (by decide)⟩

/-- C6: byte 7 decodes to `Flush`, any byte outside the enumerated set
decodes to `Invalid`, and encoding maps `Ack,Syn,SynAck,Nak,Data,Fin,
FinAck,Flush,Invalid` to `0..7` and `255` respectively.  (The `Flush`
arms are modelled from the spec — see `PacketType`.) -/
theorem C6_packet_type_codes :
    PacketType.fromByte 7 = PacketType.Flush ∧
    (∀ b : Nat, b ∉ [0, 1, 2, 3, 4, 5, 6, 7, 255] →
      PacketType.fromByte b = PacketType.Invalid) ∧
    PacketType.toByte .Ack = 0 ∧ PacketType.toByte .Syn = 1 ∧
    PacketType.toByte .SynAck = 2 ∧ PacketType.toByte .Nak = 3 ∧
    PacketType.toByte .Data = 4 ∧ PacketType.toByte .Fin = 5 ∧
    PacketType.toByte .FinAck = 6 ∧ PacketType.toByte .Flush = 7 ∧
    PacketType.toByte .Invalid = 255 := by
refine ⟨rfl, ?_, rfl, rfl, rfl, rfl, rfl, rfl, rfl, rfl, rfl⟩
intro b hb
simp only [List.mem_cons, List.not_mem_nil, or_false] at hb
push_neg at hb
obtain ⟨h0, h1, h2, h3, h4, h5, h6, h7, -⟩ := hb
rcases b with _ | b; · exact absurd rfl h0
rcases b with _ | b; · exact absurd rfl h1
rcases b with _ | b; · exact absurd rfl h2
rcases b with _ | b; · exact absurd rfl h3
rcases b with _ | b; · exact absurd rfl h4
rcases b with _ | b; · exact absurd rfl h5
rcases b with _ | b; · exact absurd rfl h6
rcases b with _ | b; · exact absurd rfl h7
rfl

/-- C6 witness: the decoding clause applied at byte 8 (outside the set)
and the other conjuncts at their concrete values. -/
theorem C6_packet_type_codes_witness :
    PacketType.fromByte 8 = PacketType.Invalid ∧
    PacketType.fromByte 7 = PacketType.Flush :=
⟨C6_packet_type_codes.2.1 8 (by decide), C6_packet_type_codes.1⟩

/-- C9: `is_empty` is constantly `false`, and `len` is the payload length
plus the 11-byte header, hence never 0 — even for an empty payload. -/
theorem C9_is_empty_and_len (p : Packet) :
    p.is_empty = false ∧ p.len = p.data.length + 11 ∧ p.len ≠ 0 := by
refine ⟨rfl, rfl, ?_⟩
simp [Packet.len, Packet.MIN_PACKET_SIZE]

/-- The packets a stream yields carry exactly the good chunks of its
reader, whatever the current configuration. -/
theorem collect_map_data (reader : List ReadOutcome) :
    ∀ pt seq port peer active,
      (PacketStream.mk reader pt seq port peer active).collect.map Packet.data
        = goodChunks reader := by
induction reader with
| nil =>
  intro pt seq port peer active
  rfl
| cons o rest ih =>
  intro pt seq port peer active
  cases o with
  | err => rfl
  | ok chunk =>
    simp only [PacketStream.collect, List.length_cons, PacketStream.collectGo,
      PacketStream.next] at *
    by_cases hc : chunk.length = 0
    · rw [if_pos hc]
      simp [goodChunks, hc]
    · rw [if_neg hc]
      simp only [List.map_cons]
      rw [goodChunks, if_neg hc]
      exact congrArg (chunk :: ·) (ih pt (seq + 1) port peer true)

/-- Conforming readers only produce good chunks of 1 to 1014 bytes. -/
theorem goodChunks_bounds (reader : List ReadOutcome)
    (hconf : ReaderConforms reader) :
    ∀ c ∈ goodChunks reader, 1 ≤ c.length ∧ c.length ≤ Packet.PACKET_DATA_CAPACITY := by
induction reader with
| nil => simp [goodChunks]
| cons o rest ih =>
  have hrest : ReaderConforms rest := by
    intro c hc
    exact hconf c (List.mem_cons_of_mem _ hc)
  cases o with
  | err => simp [goodChunks]
  | ok chunk =>
    intro c hc
    simp only [goodChunks] at hc
    by_cases h0 : chunk.length = 0
    · simp [h0] at hc
    · rw [if_neg h0] at hc
      rcases List.mem_cons.mp hc with rfl | hmem
      · exact ⟨by omega, hconf c (List.mem_cons_self _ _)⟩
      · exact ih hrest c hmem

/-- A reader error stops chunk production exactly where the reader's good
prefix ends: everything after the error is never read. -/
theorem goodChunks_append_err (pre post : List ReadOutcome) :
    goodChunks (pre ++ .err :: post) = goodChunks pre := by
induction pre with
| nil => simp [goodChunks]
| cons o rest ih =>
  cases o with
  | err => simp [goodChunks]
  | ok chunk =>
    by_cases hc : chunk.length = 0 <;> simp [goodChunks, hc, ih]

/-- C10: the iterator of `Packet::stream` yields exactly one packet per
good chunk of the reader — so it terminates at reader exhaustion *and* at
the first reader error, which is swallowed (nothing after the error is
surfaced, and the item type carries no error) — and every yielded packet
has between 1 and 1014 payload bytes. -/
theorem C10_stream_termination_and_bounds (reader : List ReadOutcome)
    (hconf : ReaderConforms reader) :
    ((Packet.stream reader).collect.map Packet.data = goodChunks reader) ∧
    (∀ pre post, reader = pre ++ .err :: post →
      (Packet.stream reader).collect.map Packet.data = goodChunks pre) ∧
    ∀ p ∈ (Packet.stream reader).collect,
      1 ≤ p.data.length ∧ p.data.length ≤ Packet.PACKET_DATA_CAPACITY := by
have hmain : (Packet.stream reader).collect.map Packet.data = goodChunks reader :=
  collect_map_data reader _ _ _ _ _
refine ⟨hmain, ?_, ?_⟩
· intro pre post hr
  rw [hmain, hr, goodChunks_append_err]
· intro p hp
  have : p.data ∈ goodChunks reader := by
    rw [← hmain]
    exact List.mem_map_of_mem Packet.data hp
  exact goodChunks_bounds reader hconf p.data this

/-- C10 witness: a reader whose second read fails and whose third read
would succeed — the error ends the stream and is swallowed. -/
theorem C10_stream_termination_and_bounds_witness :
    ReaderConforms [.ok [65], .err, .ok [66]] ∧
    (Packet.stream [.ok [65], .err, .ok [66]]).collect.map Packet.data
      = goodChunks [.ok [65], .err, .ok [66]] :=
⟨by decide, (C10_stream_termination_and_bounds _ (by decide)).1⟩

/-- C7 counterexample: after the first packet is produced (port still 0),
calling the `port` setter *does* change the configuration, and the next
packet carries the new port 9999 — the claim says every later packet
should carry the configuration in effect at the first packet. -/
theorem C7_counterexample :
    (Packet.stream [.ok [65], .ok [66]]).next.1
      = some { ptyp := .Data, nseq := 1, peer := [127, 0, 0, 1],
               port := 0, data := [65] } ∧
    (((Packet.stream [.ok [65], .ok [66]]).next.2.setPort 9999).next.1
      = some { ptyp := .Data, nseq := 2, peer := [127, 0, 0, 1],
               port := 9999, data := [66] }) ∧
    (9999 : Nat) ≠ 0 := by
decide

/-- C7 amended: once the first packet has been produced only the start-seq
setter is ignored; the peer, port and packet-type setters (generated by
the unguarded macro arm) always take effect, and a produced packet always
carries the configuration current at production time. -/
theorem C7_amended (s : PacketStream) (hactive : s.active = true) :
    (∀ n, s.setSeq n = s) ∧
    (∀ v, (s.setPort v).port = v) ∧
    (∀ v, (s.setPeer v).peer = v) ∧
    (∀ v, (s.setPacketType v).packet_type = v) ∧
    (∀ p s', s.next = (some p, s') →
      p.ptyp = s.packet_type ∧ p.nseq = s.seq ∧ p.peer = s.peer ∧ p.port = s.port) := by
refine ⟨?_, fun v => rfl, fun v => rfl, fun v => rfl, ?_⟩
· intro n
  simp [PacketStream.setSeq, hactive]
· intro p s' h
  rcases s with ⟨reader, pt, sq, pr, peer, act⟩
  rcases reader with _ | ⟨o, rest⟩
  · cases h
  · cases o with
    | err => cases h
    | ok chunk =>
      simp only [PacketStream.next] at h
      by_cases hc : chunk.length = 0
      · rw [if_pos hc] at h; cases h
      · rw [if_neg hc] at h
        cases h
        exact ⟨rfl, rfl, rfl, rfl⟩

/-- C7 amended witness: a stream that has yielded its first packet ignores
the seq setter. -/
theorem C7_amended_witness :
    (Packet.stream [.ok [65], .ok [66]]).next.2.active = true ∧
    (Packet.stream [.ok [65], .ok [66]]).next.2.setSeq 42
      = (Packet.stream [.ok [65], .ok [66]]).next.2 :=
⟨by decide, (C7_amended _ (by decide)).1 42⟩

/-- A key appended behind entries that all miss it is found with its
value. -/
theorem dupGet_append_key (l : List (Packet × Nat)) (p : Packet) (t : Nat)
    (h : ∀ e ∈ l, (e.1 == p) = false) :
    dupGet (l ++ [(p, t)]) p = some t := by
induction l with
| nil => simp [dupGet]
| cons e rest ih =>
  have he : (e.1 == p) = false := h e (List.mem_cons_self _ _)
  simp only [List.cons_append, dupGet, List.find?_cons, he]
  exact ih (fun e' he' => h e' (List.mem_cons_of_mem _ he'))

/-- Recording a SYN makes it findable with its timestamp. -/
theorem dupGet_dupInsert_self (l : List (Packet × Nat)) (p : Packet) (t : Nat) :
    dupGet (dupInsert l p t) p = some t := by
refine dupGet_append_key _ p t ?_
intro e he
have := List.of_mem_filter he
simpa using this

/-- `acceptContinue` always records the SYN in `duplicate_syns`, whether
or not the handshake succeeds. -/
theorem acceptContinue_duplicate_syns (lst : UdpxListener) (rsEnv : RSEnv)
    (p : Packet) (addr : SockAddrV4) (now : Nat) (d : SockAddrV4) :
    ((lst.acceptContinue rsEnv p addr now d).2).duplicate_syns
      = dupInsert lst.duplicate_syns p now := by
simp only [UdpxListener.acceptContinue]
split <;> rfl

/-- C8: a SYN not yet recorded passes the duplicate gate and proceeds to
the handshake, and a byte-equal SYN delivered to the resulting listener
less than 2 seconds later is rejected with an error before any handshake,
leaving the listener unchanged — so the pair yields exactly one accepted
stream. -/
theorem C8_duplicate_syn_suppression
    (lst : UdpxListener) (rsEnv1 rsEnv2 : RSEnv) (bytes : List Nat)
    (src1 src2 : SockAddrV4) (p : Packet) (t1 t2 : Nat) (d1 d2 : SockAddrV4)
    (hsyn : p.ptyp = PacketType.Syn)
    (hdec : Packet.tryFrom bytes = .ok p)
    (hfresh : dupGet lst.duplicate_syns p = none)
    (hle : t1 ≤ t2) (hwin : t2 - t1 < 2000) :
    lst.accept rsEnv1 (.ok bytes src1) t1 d1
      = lst.acceptContinue rsEnv1 p src1 t1 d1 ∧
    ((lst.accept rsEnv1 (.ok bytes src1) t1 d1).2).accept rsEnv2
        (.ok bytes src2) t2 d2
      = (.error ⟨.other, "duplicate SYN packet received"⟩,
         (lst.accept rsEnv1 (.ok bytes src1) t1 d1).2) := by
have h1 : lst.accept rsEnv1 (.ok bytes src1) t1 d1
    = lst.acceptContinue rsEnv1 p src1 t1 d1 := by
  simp only [UdpxListener.accept, hdec, hfresh]
refine ⟨h1, ?_⟩
rw [h1]
have hdup : ((lst.acceptContinue rsEnv1 p src1 t1 d1).2).duplicate_syns
    = dupInsert lst.duplicate_syns p t1 :=
  acceptContinue_duplicate_syns lst rsEnv1 p src1 t1 d1
simp only [UdpxListener.accept, hdec, hdup, dupGet_dupInsert_self]
rw [if_pos (by omega)]

/-- C8 witness: the concrete SYN `synW` delivered at `t = 1000` ms and
again, byte-equal, at `t = 2500` ms — the second delivery is rejected. -/
theorem C8_duplicate_syn_suppression_witness :
    Packet.tryFrom synW.raw = .ok synW ∧
    ((lstW.accept rsEnvW (.ok synW.raw clientAddrW) 1000 dispatchAddrW).2).accept
        rsEnvW (.ok synW.raw clientAddrW) 2500 dispatchAddrW
      = (.error ⟨.other, "duplicate SYN packet received"⟩,
         (lstW.accept rsEnvW (.ok synW.raw clientAddrW) 1000 dispatchAddrW).2) :=
⟨by decide,
 (C8_duplicate_syn_suppression lstW rsEnvW rsEnvW synW.raw clientAddrW clientAddrW
    synW 1000 2500 dispatchAddrW dispatchAddrW (by decide) (by decide) (by decide)
    (by omega) (by omega)).2⟩

/-- C4 counterexample: the listener passes its 50 ms timeout
(`DEFAULT_TIMEOUT`) to `reliable_send`, but the per-attempt receive
timeout actually installed is 100 ms, not 50 ms — the `timeout` parameter
is shadowed by the `TIMEOUT` constant (`transport.rs:1138`). -/
theorem C4_counterexample :
    reliableSendReadTimeout 50 = 100 ∧ reliableSendReadTimeout 50 ≠ 50 := by
decide

/-- C4 amended: every attempt waits with the fixed per-attempt receive
timeout `TIMEOUT = 100` ms; the caller-supplied timeout argument is
shadowed on entry and has no effect on the call at all. -/
theorem C4_amended (t t' : Nat) :
    reliableSendReadTimeout t = TIMEOUT ∧ TIMEOUT = 100 ∧
    ∀ (env : RSEnv) (send : List Nat) (peer : SockAddrV4) (spt : PacketType)
      (rts : List PacketType) (sam swb : Bool) (proxy : Option SockAddrV4),
      reliableSend env send peer t spt rts sam swb proxy
        = reliableSend env send peer t' spt rts sam swb proxy :=
⟨rfl, rfl, fun _ _ _ _ _ _ _ _ => rfl⟩

/-- If a `reliable_send` run exhausts all its attempts having recorded
`seen` as the decoded-but-unaccepted response types, the call returns the
invalid-responses error carrying `seen` when `seen` is non-empty, and the
timed-out error when nothing was decoded. -/
theorem reliableSend_exhaust_result (env : RSEnv) (send : List Nat)
    (peer : SockAddrV4) (rts : List PacketType) (sam : Bool)
    (seen : List PacketType) :
    ∀ k i bl inv,
      reliableSendExhaustsGo env peer rts sam k i bl inv = some seen →
      reliableSendGo env send peer rts sam k i bl inv
        = .error (if seen.isEmpty then rsTimedOutErr else rsInvalidErr rts seen) := by
intro k i bl inv
induction k, i, bl, inv using reliableSendExhaustsGo.induct env peer rts sam with
| case1 k i bl inv hge =>
  intro hex
  rw [reliableSendExhaustsGo, dif_pos hge] at hex
  obtain rfl : inv.reverse = seen := Option.some.inj hex
  rw [reliableSendGo, dif_pos hge]
  rcases inv with _ | ⟨a, inv⟩
  · rfl
  · simp
| case2 k i bl inv hni e hsend =>
  intro hex
  rw [reliableSendExhaustsGo, dif_neg hni] at hex
  simp only [hsend] at hex
  exact absurd hex (by simp)
| case3 k i bl inv hni hsend e hrecv hkind ih =>
  intro hex
  rw [reliableSendExhaustsGo, dif_neg hni] at hex
  simp only [hsend, hrecv] at hex
  rw [if_pos hkind] at hex
  rw [reliableSendGo, dif_neg hni]
  simp only [hsend, hrecv]
  rw [if_pos hkind]
  exact ih hex
| case4 k i inv hni hsend e hrecv hk1 hk2 =>
  intro hex
  rw [reliableSendExhaustsGo, dif_neg hni] at hex
  simp only [hsend, hrecv] at hex
  rw [if_neg hk1, dif_pos hk2] at hex
  simp at hex
| case5 k i bl inv hni hsend e hrecv hk1 hk2 hbl ih =>
  intro hex
  rw [reliableSendExhaustsGo, dif_neg hni] at hex
  simp only [hsend, hrecv] at hex
  rw [if_neg hk1, dif_pos hk2, dif_neg hbl] at hex
  rw [reliableSendGo, dif_neg hni]
  simp only [hsend, hrecv]
  rw [if_neg hk1, dif_pos hk2, dif_neg hbl]
  exact ih hex
| case6 k i bl inv hni hsend e hrecv hk1 hk2 =>
  intro hex
  rw [reliableSendExhaustsGo, dif_neg hni] at hex
  simp only [hsend, hrecv] at hex
  rw [if_neg hk1, dif_neg hk2] at hex
  exact absurd hex (by simp)
| case7 k i bl inv hni hsend bytes src hrecv hskip ih =>
  intro hex
  rw [reliableSendExhaustsGo, dif_neg hni] at hex
  simp only [hsend, hrecv] at hex
  rw [if_pos hskip] at hex
  rw [reliableSendGo, dif_neg hni]
  simp only [hsend, hrecv]
  rw [if_pos hskip]
  exact ih hex
| case8 k i bl inv hni hsend bytes src hrecv hnskip msg htf =>
  intro hex
  rw [reliableSendExhaustsGo, dif_neg hni] at hex
  simp only [hsend, hrecv] at hex
  rw [if_neg hnskip] at hex
  simp only [htf] at hex
  exact absurd hex (by simp)
| case9 k i bl inv hni hsend bytes src hrecv hnskip p htf hacc =>
  intro hex
  rw [reliableSendExhaustsGo, dif_neg hni] at hex
  simp only [hsend, hrecv] at hex
  rw [if_neg hnskip] at hex
  simp only [htf] at hex
  rw [if_pos hacc] at hex
  exact absurd hex (by simp)
| case10 k i bl inv hni hsend bytes src hrecv hnskip p htf hnacc ih =>
  intro hex
  rw [reliableSendExhaustsGo, dif_neg hni] at hex
  simp only [hsend, hrecv] at hex
  rw [if_neg hnskip] at hex
  simp only [htf] at hex
  rw [if_neg hnacc] at hex
  rw [reliableSendGo, dif_neg hni]
  simp only [hsend, hrecv]
  rw [if_neg hnskip]
  simp only [htf]
  rw [if_neg hnacc]
  exact ih hex

/-- C5: for a `reliable_send` call that exhausts all attempts without an
accepted response (`reliableSendExhausts` observes the run, recording in
`seen` the decoded responses whose type missed `recv_packet_types`): if at
least one response was decoded, the call returns the
invalid-responses error carrying the observed types; if none was, it
returns the timed-out error. -/
theorem C5_reliable_send_exhaustion (env : RSEnv) (send : List Nat)
    (peer : SockAddrV4) (timeout : Nat) (spt : PacketType)
    (rts : List PacketType) (sam swb : Bool) (proxy : Option SockAddrV4)
    (seen : List PacketType)
    (hex : reliableSendExhausts env peer rts sam = some seen) :
    (seen ≠ [] →
      reliableSend env send peer timeout spt rts sam swb proxy
        = .error (rsInvalidErr rts seen)) ∧
    (seen = [] →
      reliableSend env send peer timeout spt rts sam swb proxy
        = .error rsTimedOutErr) := by
have h := reliableSend_exhaust_result env send peer rts sam seen 0 0
  RELIABLE_SEND_MAX_ATTEMPTS [] hex
constructor
· intro hne
  rw [reliableSend, h, if_neg (by simpa [List.isEmpty_iff] using hne)]
· intro he
  subst he
  rw [reliableSend, h]
  rfl

/-- Against an oracle that only ever times out, every `reliable_send` run
exhausts its attempts with nothing decoded. -/
theorem exhausts_of_all_timeouts (peer : SockAddrV4) (rts : List PacketType)
    (sam : Bool) :
    ∀ (fuel k i bl : Nat) (inv : List PacketType),
      RELIABLE_SEND_MAX_ATTEMPTS - i ≤ fuel →
      reliableSendExhaustsGo rsEnvTimeoutW peer rts sam k i bl inv
        = some inv.reverse := by
intro fuel
induction fuel with
| zero =>
  intro k i bl inv hle
  rw [reliableSendExhaustsGo, dif_pos (by omega)]
| succ fuel ih =>
  intro k i bl inv hle
  by_cases hge : RELIABLE_SEND_MAX_ATTEMPTS ≤ i
  · rw [reliableSendExhaustsGo, dif_pos hge]
  · rw [reliableSendExhaustsGo, dif_neg hge]
    show reliableSendExhaustsGo rsEnvTimeoutW peer rts sam (k + 1) (i + 1) bl inv
      = some inv.reverse
    exact ih (k + 1) (i + 1) bl inv (by omega)

/-- C5 witness: a handshake-style call whose oracle always times out
exhausts with nothing decoded and returns the timed-out error. -/
theorem C5_reliable_send_exhaustion_witness :
    reliableSendExhausts rsEnvTimeoutW clientAddrW [PacketType.SynAck] false
      = some [] ∧
    reliableSend rsEnvTimeoutW synW.raw clientAddrW 50 .Syn [PacketType.SynAck]
        false true none
      = .error rsTimedOutErr := by
have hex : reliableSendExhausts rsEnvTimeoutW clientAddrW [PacketType.SynAck] false
    = some [] := by
  have := exhausts_of_all_timeouts clientAddrW [PacketType.SynAck] false
    RELIABLE_SEND_MAX_ATTEMPTS 0 0 RELIABLE_SEND_MAX_ATTEMPTS [] (by omega)
  simpa [reliableSendExhausts] using this
exact ⟨hex,
  (C5_reliable_send_exhaustion rsEnvTimeoutW synW.raw clientAddrW 50 .Syn
    [PacketType.SynAck] false true none [] hex).2 rfl⟩

/-- When every send succeeds, the send phase transmits every queued packet
in order and returns with the would-block budget untouched. -/
theorem writeSendPhase_all_ok (env : SockEnv) (hsends : ∀ j, env.sends j = .ok) :
    ∀ (ts : List PacketTransfer) (m : Machine) (skipped : Nat),
      writeSendPhase env ts m skipped
        = .inr ({ m with
                    sendIdx := m.sendIdx + ts.length
                    sentLog := m.sentLog ++ ts.map (fun t => t.packet) }, skipped) := by
intro ts
induction ts with
| nil => intro m skipped; simp [writeSendPhase]
| cons t rest ih =>
  intro m skipped
  simp only [writeSendPhase, Machine.sockSend, hsends]
  rw [ih]
  simp only [Sum.inr.injEq, Prod.mk.injEq, Machine.mk.injEq, List.length_cons,
    List.map_cons]
  refine ⟨⟨trivial, trivial, by omega, by simp⟩, trivial⟩

/-- A non-empty write buffer always queues at least one packet. -/
theorem queuedPackets_ne_nil (s : UdpxStream) (buf : List Nat) (hbuf : buf ≠ []) :
    s.queuedPackets buf ≠ [] := by
have hmap : (s.queuedPackets buf).map Packet.data = goodChunks (sliceReader buf) :=
  collect_map_data (sliceReader buf) _ _ _ _ _
intro hnil
rw [hnil] at hmap
rcases buf with _ | ⟨x, xs⟩
· exact hbuf rfl
· simp only [sliceReader, chunksOf1014, List.length_cons, chunksOf1014Go] at hmap
  rw [if_neg (by simp)] at hmap
  simp only [List.map_cons, goodChunks] at hmap
  rw [if_neg (by simp)] at hmap
  simp at hmap

/-- C3 counterexample: an established stream (no latched error, not
closed, nothing buffered) receives a 3-byte datagram; `read` returns the
wrapped decode error instead of dropping the datagram and continuing —
`Packet::try_from(..).wrap_malpac()?` propagates (`transport.rs:767-768`).
(The machine is otherwise untouched: in particular no error is latched.) -/
theorem C3_counterexample :
    UdpxStream.read malEnvW 10 5 estMachineW
      = some (.error ⟨.other,
                "received a malformed packet: invalid packet, must be at least 11 bytes"⟩,
              { estMachineW with recvIdx := 1 }) ∧
    ({ estMachineW with recvIdx := 1 } : Machine).stream.err = none := by
exact ⟨by decide, by decide⟩

/-- C3 amended: a datagram that fails to decode (length below 11 bytes)
makes the in-progress `read` or `write` call return a
"received a malformed packet" error, but the error is *not* latched on the
stream and the connection is not aborted: the stream state (in particular
`err` and `closed`) is unchanged, so subsequent calls proceed normally. -/
theorem C3_amended_malformed_errors_not_latched :
    (∀ (env : SockEnv) (m : Machine) (bufLen fuel : Nat) (bytes : List Nat)
       (emsg : String),
      m.stream.err = none → m.stream.is_closed = false →
      assocGet m.stream.packets_received m.stream.next_nseq = none →
      env.recvs m.recvIdx = .ok bytes →
      Packet.tryFrom bytes = .error emsg →
      0 < bufLen → 0 < fuel →
      UdpxStream.read env bufLen fuel m
        = some (.error ⟨.other, "received a malformed packet: " ++ emsg⟩,
                { m with recvIdx := m.recvIdx + 1 })) ∧
    (∀ (env : SockEnv) (m : Machine) (buf : List Nat) (fuel : Nat)
       (bytes : List Nat) (emsg : String),
      m.stream.err = none → m.stream.closed = false →
      m.stream.packets_sent = [] → buf ≠ [] →
      (∀ j, env.sends j = .ok) →
      env.recvs m.recvIdx = .ok bytes →
      Packet.tryFrom bytes = .error emsg →
      1 < fuel →
      ∃ m', UdpxStream.write env buf fuel m
          = some (.error ⟨.other, "received a malformed packet: " ++ emsg⟩, m')
        ∧ m'.stream.err = none ∧ m'.stream.closed = false) := by
constructor
· intro env m bufLen fuel bytes emsg herr hcl hbuf hrecv htf hb hf
  obtain ⟨f, rfl⟩ : ∃ f, fuel = f + 1 := ⟨fuel - 1, by omega⟩
  have hmre : m.stream.maybe_registered_err 0 = none := by
    simp [UdpxStream.maybe_registered_err, UdpxStream.registered_err, hcl, herr]
  rw [UdpxStream.read]
  simp only [readGo, List.length_nil]
  rw [if_neg (not_not_intro ⟨hb, by norm_num⟩)]
  simp only [hmre, hbuf, Machine.sockRecv, hrecv, htf]
· intro env m buf fuel bytes emsg herr hcl hqe hbuf hsends hrecv htf hf
  obtain ⟨f, rfl⟩ : ∃ f, fuel = f + 1 := ⟨fuel - 1, by omega⟩
  obtain ⟨f', rfl⟩ : ∃ f', f = f' + 1 := ⟨f - 1, by omega⟩
  have hice : m.stream.is_closed = false := by
    simp [UdpxStream.is_closed, hcl]
  have hreg : m.stream.registered_err = .ok () := by
    simp [UdpxStream.registered_err, hice, herr]
  rw [UdpxStream.write, hreg]
  simp only []
  set ps := m.stream.queuedPackets buf with hps
  have hpsne : ps ≠ [] := queuedPackets_ne_nil m.stream buf hbuf
  set m1 : Machine := { m with stream :=
    { m.stream with
        packets_sent := m.stream.packets_sent ++ ps.map (fun p => (p.nseq, ⟨false, p⟩))
        next_nseq := m.stream.next_nseq + ps.length } } with hm1
  have hqne : m1.stream.packets_sent ≠ [] := by
    simp [hm1, hqe, hpsne]
  have hmre1 : m1.stream.maybe_registered_err 0 = none := by
    simp [UdpxStream.maybe_registered_err, UdpxStream.registered_err,
      UdpxStream.is_closed, hm1, hcl, herr]
  rw [writeGo]
  rw [if_neg (not_not_intro ⟨hqne, by norm_num⟩)]
  rw [hmre1]
  rw [writeSendPhase_all_ok env hsends]
  simp only []
  rw [writeAckPhase]
  rw [if_neg ?ine]
  case ine =>
    simp [hm1, hqe]
    exact hpsne
  simp only [Machine.sockRecv, hrecv, htf]
  exact ⟨_, rfl, by simp [herr], by simp [hcl]⟩

/-- A client handshake that completes leaves the outbound seq counter at
`FIRST_NSEQ` (`transport.rs:321`): the counter is set at stream creation
and never touched during the handshake. -/
theorem connect_next_nseq (addr myAddr : SockAddrV4) (proxy : Option SockAddrV4)
    (rsEnv : RSEnv) (env : SockEnv) (m : Machine)
    (hm : UdpxStream.connect_with_proxy addr myAddr proxy rsEnv env = .ok m) :
    m.stream.next_nseq = UdpxStream.FIRST_NSEQ := by
simp only [UdpxStream.connect_with_proxy] at hm
split at hm
· cases hm
· simp only [Machine.sockSend] at hm
  rcases hse : env.sends 0 with _ | e <;> simp only [hse] at hm
  · cases hm
    rfl
  · cases hm

/-- A server handshake that completes starts the stream at
`SYN.nseq + 3` (`transport.rs:156`). -/
theorem handshakeFn_start_nseq (lst : UdpxListener) (rsEnv : RSEnv)
    (addr : SockAddrV4) (p : Packet) (d : SockAddrV4) (q : Packet)
    (nseq : Nat) (remote : SockAddrV4)
    (h : lst.handshakeFn rsEnv addr p d = .ok (q, nseq, remote)) :
    nseq = p.nseq + 3 := by
simp only [UdpxListener.handshakeFn] at h
split at h
· cases h
· split at h
  · cases h
  · split at h
    · cases h; rfl
    · split at h
      · cases h
      · cases h; rfl
    · cases h

/-- The first packet a `write` call queues carries the stream's current
`next_nseq` (`transport.rs:862-872`). -/
theorem queuedPackets_head_nseq (s : UdpxStream) (buf : List Nat) (hbuf : buf ≠ []) :
    ((s.queuedPackets buf).head?).map Packet.nseq = some s.next_nseq := by
rcases buf with _ | ⟨x, xs⟩
· exact absurd rfl hbuf
· show ((PacketStream.collect
      (PacketStream.mk (sliceReader (x :: xs)) .Data s.next_nseq
        s.remote.port s.remote.ip false)).head?).map Packet.nseq = some s.next_nseq
  simp only [PacketStream.collect, sliceReader, chunksOf1014, List.length_cons,
    chunksOf1014Go]
  rw [if_neg (by simp)]
  simp only [List.map_cons, List.length_map, List.length_cons,
    PacketStream.collectGo, PacketStream.next]
  rw [if_neg (by simp)]
  rfl

/-- Fully consuming the single buffered in-order packet advances
`next_nseq` by exactly one, so the next `write` starts one seq higher. -/
theorem read_consume_one (env : SockEnv) (m : Machine) (bufLen fuel : Nat)
    (t : PacketTransfer) (buf : List Nat)
    (herr : m.stream.err = none) (hcl : m.stream.closed = false)
    (hlast : m.stream.last_nseq = none)
    (hbuf : m.stream.packets_received = [(m.stream.next_nseq, t)])
    (hdata : t.packet.data.length = bufLen) (hpos : 0 < bufLen)
    (hf : 1 < fuel) (hbne : buf ≠ []) :
    ∃ m', UdpxStream.read env bufLen fuel m = some (.ok t.packet.data, m')
      ∧ m'.stream.next_nseq = m.stream.next_nseq + 1
      ∧ ((m'.stream.queuedPackets buf).head?).map Packet.nseq
          = some (m.stream.next_nseq + 1) := by
obtain ⟨f, rfl⟩ : ∃ f, fuel = f + 1 := ⟨fuel - 1, by omega⟩
obtain ⟨f', rfl⟩ : ∃ f', f = f' + 1 := ⟨f - 1, by omega⟩
have hice : m.stream.is_closed = false := by simp [UdpxStream.is_closed, hcl]
have hmre : m.stream.maybe_registered_err 0 = none := by
  simp [UdpxStream.maybe_registered_err, UdpxStream.registered_err, hice, herr]
have hget : assocGet m.stream.packets_received m.stream.next_nseq = some t := by
  simp [assocGet, hbuf]
have hrem : assocRemove m.stream.packets_received m.stream.next_nseq = [] := by
  simp [assocRemove, hbuf]
rw [UdpxStream.read]
simp only [readGo, List.length_nil]
rw [if_neg (not_not_intro ⟨hpos, by norm_num⟩)]
simp only [hmre, hget, hrem]
have hdrop : List.drop bufLen t.packet.data = [] := by
  rw [← hdata]; exact List.drop_length _
have htake : List.take bufLen t.packet.data = t.packet.data := by
  rw [← hdata]; exact List.take_length _
simp only [readConsume, List.length_nil, Nat.sub_zero, hdata, min_self, hdrop,
  htake, List.isEmpty_nil, if_true, List.nil_append]
simp only [UdpxStream.received_last_packet, hlast]
simp only [Bool.false_eq_true, if_false]
rw [if_pos (show ¬(t.packet.data.length < bufLen ∧ 0 < 2 ^ 14) from by simp [hdata])]
refine ⟨_, rfl, by simp, queuedPackets_head_nseq _ buf hbne⟩

/-- C2 counterexample: a successful handshake on a SYN with seq `S = 0`
hands the server a stream whose seq counter is 3; a server that writes
immediately puts its first (and only) DATA packet on the wire with seq
`3 = S + 3`, not `S + 4` as claimed. -/
theorem C2_counterexample :
    (lstW.accept rsEnvW (.ok synW.raw clientAddrW) 1000 dispatchAddrW).1
      = .ok (srvMachineW, clientAddrW) ∧
    synW.nseq = 0 ∧
    (UdpxStream.write wrAckEnvW [72] 5 srvMachineW).map
        (fun r => (r.1, wireDataSeqs r.2))
      = some (.ok 1, [3]) ∧
    (3 : Nat) ≠ 0 + 4 := by
refine ⟨?_, by decide, by decide, by decide⟩
simp [UdpxListener.accept, UdpxListener.acceptContinue, UdpxListener.handshakeFn,
  reliableSend, reliableSendGo, lstW, UdpxListener.bind_with_proxy, synW, ackW,
  rsEnvW, clientAddrW, dispatchAddrW, srvMachineW, Packet.tryFrom, Packet.raw,
  PacketType.toByte, PacketType.fromByte, toBe4, toBe2, fromBe4, fromBe2,
  serialize_addr, deserialize_addr, fromLe2, dupGet, dupInsert, Packet.default,
  RELIABLE_SEND_MAX_ATTEMPTS, UdpxStream.new, UdpxStream.with_starting_data,
  UdpxStream.load_initial_data_packets, DEFAULT_TIMEOUT]

/-- C2 amended: after a successful handshake on a SYN with seq `S`, *both*
sides initialize their (single, shared) seq counter to `S + 3`: the
client's SYN always carries `S = 0` and its first DATA seq is `S + 3`;
the server's first DATA packet carries `S + 3 + k` after fully consuming
`k` in-order DATA packets before its first write — `S + 4` exactly when it
has consumed the usual one-packet request, and `S + 3` if it writes
first. -/
theorem C2_amended_first_data_seqs :
    (∀ addr myAddr, (UdpxStream.clientSyn addr myAddr).nseq = 0) ∧
    UdpxStream.FIRST_NSEQ = 3 ∧
    (∀ (addr myAddr : SockAddrV4) (proxy : Option SockAddrV4) (rsEnv : RSEnv)
       (env : SockEnv) (m : Machine),
      UdpxStream.connect_with_proxy addr myAddr proxy rsEnv env = .ok m →
      m.stream.next_nseq = UdpxStream.FIRST_NSEQ) ∧
    (∀ (lst : UdpxListener) (rsEnv : RSEnv) (addr : SockAddrV4) (p : Packet)
       (d : SockAddrV4) (q : Packet) (nseq : Nat) (remote : SockAddrV4),
      lst.handshakeFn rsEnv addr p d = .ok (q, nseq, remote) →
      nseq = p.nseq + 3) ∧
    (∀ (s : UdpxStream) (buf : List Nat), buf ≠ [] →
      ((s.queuedPackets buf).head?).map Packet.nseq = some s.next_nseq) ∧
    (∀ (env : SockEnv) (m : Machine) (bufLen fuel : Nat) (t : PacketTransfer)
       (buf : List Nat),
      m.stream.err = none → m.stream.closed = false →
      m.stream.last_nseq = none →
      m.stream.packets_received = [(m.stream.next_nseq, t)] →
      t.packet.data.length = bufLen → 0 < bufLen → 1 < fuel → buf ≠ [] →
      ∃ m', UdpxStream.read env bufLen fuel m = some (.ok t.packet.data, m')
        ∧ m'.stream.next_nseq = m.stream.next_nseq + 1
        ∧ ((m'.stream.queuedPackets buf).head?).map Packet.nseq
            = some (m.stream.next_nseq + 1)) :=
⟨fun _ _ => rfl, rfl, connect_next_nseq, handshakeFn_start_nseq,
 queuedPackets_head_nseq, read_consume_one⟩

/-- C2 amended witness: a server machine at seq 3 holding the client's
one-packet request consumes it and would send its first DATA with
seq 4. -/
theorem C2_amended_first_data_seqs_witness :
    ∃ m', UdpxStream.read quietEnvW 3 5 consumeMachineW
        = some (.ok [7, 8, 9], m')
      ∧ m'.stream.next_nseq = 4
      ∧ ((m'.stream.queuedPackets [72]).head?).map Packet.nseq = some 4 :=
C2_amended_first_data_seqs.2.2.2.2.2 quietEnvW consumeMachineW 3 5
  ⟨false, ⟨.Data, 3, [127, 0, 0, 1], 9, [7, 8, 9]⟩⟩ [72]
  (by decide) (by decide) (by decide) (by decide) (by decide) (by omega)
  (by omega) (by decide)

/-- C3 amended witness: the read half at the concrete machine and oracle
of the counterexample, and the write half on the same stream. -/
theorem C3_amended_malformed_errors_not_latched_witness :
    Packet.tryFrom [1, 2, 3]
      = .error "invalid packet, must be at least 11 bytes" ∧
    UdpxStream.read malEnvW 10 5 estMachineW
      = some (.error ⟨.other,
                "received a malformed packet: invalid packet, must be at least 11 bytes"⟩,
              { estMachineW with recvIdx := 1 }) ∧
    ∃ m', UdpxStream.write malEnvW [72] 5 estMachineW
        = some (.error ⟨.other,
                  "received a malformed packet: invalid packet, must be at least 11 bytes"⟩,
                m')
      ∧ m'.stream.err = none ∧ m'.stream.closed = false :=
⟨by decide,
 C3_amended_malformed_errors_not_latched.1 malEnvW estMachineW 10 5 [1, 2, 3]
   "invalid packet, must be at least 11 bytes" (by decide) (by decide) (by decide)
   (by decide) (by decide) (by omega) (by omega),
 C3_amended_malformed_errors_not_latched.2 malEnvW estMachineW [72] 5 [1, 2, 3]
   "invalid packet, must be at least 11 bytes" (by decide) (by decide) (by decide)
   (by decide) (fun j => rfl) (by decide) (by decide) (by omega)⟩

end Udpx
